import Mathlib

/-!
# FM3 peripherals: watchdog timer, clock/reset controller, interrupt monitor

A shallow embedding of `hw/fm3_wdt.c`, `hw/fm3_cr.c` and `hw/fm3_int.c`.

* `uint32_t` / `uint64_t` quantities are natural numbers; a truncation
  `% 2 ^ 32` is written wherever the C assignment or arithmetic can leave the
  32-bit range.
* A handler that receives the device through a pointer becomes a function
  from the device state to the new device state; what it sends to `printf`
  is returned next to the state as a list of messages.
-/

/-! ## Watchdog timer (`hw/fm3_wdt.c`) -/

/-- Register offset of the hardware watchdog control register. -/
def FM3_WDT_OFFSET_HW_CTL : Nat := 0x0008

/-- Register offset of the hardware watchdog lock register. -/
def FM3_WDT_OFFSET_HW_LCK : Nat := 0x0C00

/-- Register offset of the software watchdog control register. -/
def FM3_WDT_OFFSET_SW_CTL : Nat := 0x1008

/-- Register offset of the software watchdog lock register. -/
def FM3_WDT_OFFSET_SW_LCK : Nat := 0x1C00

/-- First unlock code. -/
def FM3_WDT_UNLOCK : Nat := 0x1ACCE551

/-- Second unlock code. -/
def FM3_WDT_UNLOCK_CTL : Nat := 0xE5331AAE

/-- States for unlocking (`enum FM3_WDT_STATE`). -/
inductive FM3_WDT_STATE where
  | FM3_WDT_STATE_LOCK_ALL
  | FM3_WDT_STATE_LOCK_CTL
  | FM3_WDT_STATE_UNLOCK
  deriving DecidableEq, Repr

open FM3_WDT_STATE

/-- One watchdog instance (`Fm3WatchdogTimer`). -/
structure Fm3WatchdogTimer where
  state : FM3_WDT_STATE
  control : Nat
  deriving DecidableEq, Repr

/-- The device (`Fm3WdtState`), without the bus plumbing. -/
structure Fm3WdtState where
  sw : Fm3WatchdogTimer
  hw : Fm3WatchdogTimer
  deriving DecidableEq, Repr

/-- What `fm3_wdt_write` prints:
`FM3_WDT: H/W watchdog timer is enabled|disabled`. -/
inductive Fm3WdtPrint where
  | hw_timer (enabled : Bool)
  deriving DecidableEq, Repr

/-- The lock transition function. `ret` starts as `LOCK_ALL` and is changed
only by the two matching codes. -/
def fm3_wdt_unlock_state (state : FM3_WDT_STATE) (unlock_code : Nat) : FM3_WDT_STATE :=
  match state with
  | FM3_WDT_STATE_LOCK_ALL =>
      if unlock_code = FM3_WDT_UNLOCK then FM3_WDT_STATE_LOCK_CTL
      else FM3_WDT_STATE_LOCK_ALL
  | FM3_WDT_STATE_LOCK_CTL =>
      if unlock_code = FM3_WDT_UNLOCK_CTL then FM3_WDT_STATE_UNLOCK
      else FM3_WDT_STATE_LOCK_ALL
  | FM3_WDT_STATE_UNLOCK => FM3_WDT_STATE_LOCK_ALL

/-- The read handler. It returns the device state it was given (the C code
assigns to nothing behind `s`) and the value read. -/
def fm3_wdt_read (s : Fm3WdtState) (offset : Nat) : Fm3WdtState × Nat :=
  if offset = FM3_WDT_OFFSET_HW_CTL then
    (s, s.hw.control &&& 3)
  else if offset = FM3_WDT_OFFSET_HW_LCK then
    if s.hw.state ≠ FM3_WDT_STATE_UNLOCK then (s, 1) else (s, 0)
  else
    (s, 0)

/-- The write handler. `value` is the `uint64_t` written; the lock code
is narrowed to `uint32_t` when it is passed to `fm3_wdt_unlock_state`. -/
def fm3_wdt_write (s : Fm3WdtState) (offset value : Nat) :
    Fm3WdtState × List Fm3WdtPrint :=
  if offset = FM3_WDT_OFFSET_HW_CTL then
    if s.hw.state ≠ FM3_WDT_STATE_UNLOCK then
      (s, [])
    else
      ({ s with hw := { s.hw with control := (value &&& 3) % 2 ^ 32 } },
        [Fm3WdtPrint.hw_timer (decide (value &&& 2 ≠ 0))])
  else if offset = FM3_WDT_OFFSET_HW_LCK then
    ({ s with hw := { s.hw with
        state := fm3_wdt_unlock_state s.hw.state (value % 2 ^ 32) } }, [])
  else
    (s, [])

/-- The part of `fm3_wdt_init` that touches the device state: both
instances start locked. -/
def fm3_wdt_init (s : Fm3WdtState) : Fm3WdtState :=
  { s with
    sw := { s.sw with state := FM3_WDT_STATE_LOCK_ALL }
    hw := { s.hw with state := FM3_WDT_STATE_LOCK_ALL } }

/-! ## Clock and reset controller (`hw/fm3_cr.c`) -/

/-- Offset of the mode-control register (SCM_CTL). -/
def FM3_CR_SCM_CTL_OFFSET : Nat := 0x0000

/-- Offset of the mode-status register (SCM_STR). -/
def FM3_CR_SCM_STR_OFFSET : Nat := 0x0004

/-- Offset of the base-clock prescaler register (BSC_PSR). -/
def FM3_CR_BSC_PSR_OFFSET : Nat := 0x0010

/-- Offset of PLL control register 1. -/
def FM3_CR_PLL_CTL1_OFFSET : Nat := 0x0038

/-- Offset of PLL control register 2. -/
def FM3_CR_PLL_CTL2_OFFSET : Nat := 0x003c

/-- High-speed oscillator frequency. -/
def FM3_CR_HI_OSC_HZ : Nat := 4000000

/-- Low-speed oscillator frequency. -/
def FM3_CR_LOW_OSC_HZ : Nat := 100000

/-- The device (`Fm3CrState`), without the bus plumbing. All fields are
`uint32_t`. -/
structure Fm3CrState where
  scm : Nat
  bsc : Nat
  pll1 : Nat
  pll2 : Nat
  main_clk_hz : Nat
  sub_clk_hz : Nat
  master_clk_hz : Nat
  deriving DecidableEq, Repr

/-- The four messages the clock controller prints. -/
inductive Fm3CrPrint where
  | invalid_master_clock (scm : Nat)
  | invalid_divisor (bsc : Nat)
  | base_clock (hz : Nat)
  | invalid_pll (plln : Nat)
  deriving DecidableEq, Repr

/-- Modelled from the spec: the declaration of the global `system_clock_scale`
(header `arm-misc.h`) is not among the sources, so the published clock-scale
cell is carried next to the device state and holds the 32-bit quantity that
the code assigns to it. `printed` is what the call sent to `printf`. -/
structure Fm3CrResult where
  s : Fm3CrState
  system_clock_scale : Nat
  printed : List Fm3CrPrint
  deriving DecidableEq, Repr

/-- PLL output: `main_clk_hz / k * n` in `uint32_t` arithmetic. -/
def fm3_cr_get_pll (s : Fm3CrState) : Nat :=
  let k := ((s.pll1 >>> 4) &&& 0xf) + 1
  let n := (s.pll2 &&& 0x3f) + 1
  (s.main_clk_hz / k * n) % 2 ^ 32

/-- Recomputation of the master clock and of the published clock scale.
The first `switch` is over `(s->scm >> 5) & 3`, the second over `s->bsc`;
each `default` prints and returns. -/
def fm3_cr_update_system_clock (s : Fm3CrState) (system_clock_scale : Nat) :
    Fm3CrResult :=
  let tmp := system_clock_scale
  let sel := (s.scm >>> 5) &&& 3
  let selected : Option Fm3CrState :=
    if sel = 0 then
      some { s with master_clk_hz := FM3_CR_HI_OSC_HZ }
    else if sel = 1 then
      if s.scm &&& (1 <<< 3) ≠ 0 then some { s with master_clk_hz := s.main_clk_hz }
      else some { s with master_clk_hz := 0 }
    else if sel = 2 then
      if s.scm &&& (1 <<< 4) ≠ 0 then some { s with master_clk_hz := fm3_cr_get_pll s }
      else some { s with master_clk_hz := 0 }
    else if sel = 4 then
      some { s with master_clk_hz := FM3_CR_LOW_OSC_HZ }
    else if sel = 5 then
      if s.scm &&& (1 <<< 3) ≠ 0 then some { s with master_clk_hz := s.main_clk_hz }
      else some { s with master_clk_hz := 0 }
    else
      none
  match selected with
  | none => ⟨s, system_clock_scale, [Fm3CrPrint.invalid_master_clock s.scm]⟩
  | some s1 =>
    let divided : Option Nat :=
      if s1.bsc = 0 then some s1.master_clk_hz
      else if s1.bsc = 1 then some (s1.master_clk_hz >>> 1)
      else if s1.bsc = 2 then some (s1.master_clk_hz / 3)
      else if s1.bsc = 3 then some (s1.master_clk_hz >>> 2)
      else if s1.bsc = 4 then some (s1.master_clk_hz / 6)
      else if s1.bsc = 5 then some (s1.master_clk_hz >>> 3)
      else if s1.bsc = 6 then some (s1.master_clk_hz >>> 4)
      else none
    match divided with
    | none => ⟨s1, system_clock_scale, [Fm3CrPrint.invalid_divisor s1.bsc]⟩
    | some scale =>
      ⟨s1, scale, if tmp ≠ scale then [Fm3CrPrint.base_clock scale] else []⟩

/-- The read handler: the device state it was given and the value read. -/
def fm3_cr_read (s : Fm3CrState) (offset : Nat) : Fm3CrState × Nat :=
  if offset = FM3_CR_SCM_STR_OFFSET ∨ offset = FM3_CR_SCM_CTL_OFFSET then (s, s.scm)
  else if offset = FM3_CR_BSC_PSR_OFFSET then (s, s.bsc)
  else if offset = FM3_CR_PLL_CTL1_OFFSET then (s, s.pll1)
  else if offset = FM3_CR_PLL_CTL2_OFFSET then (s, s.pll2)
  else (s, 0)

/-- The write handler. `value` is the `uint64_t` written; the stores into
the `uint32_t` fields narrow it. -/
def fm3_cr_write (s : Fm3CrState) (system_clock_scale : Nat) (offset value : Nat) :
    Fm3CrResult :=
  if offset = FM3_CR_SCM_CTL_OFFSET then
    fm3_cr_update_system_clock { s with scm := (value &&& 0xff) % 2 ^ 32 }
      system_clock_scale
  else if offset = FM3_CR_BSC_PSR_OFFSET then
    fm3_cr_update_system_clock { s with bsc := (value &&& 3) % 2 ^ 32 }
      system_clock_scale
  else if offset = FM3_CR_PLL_CTL1_OFFSET then
    fm3_cr_update_system_clock { s with pll1 := value % 2 ^ 32 } system_clock_scale
  else if offset = FM3_CR_PLL_CTL2_OFFSET then
    let s1 := { s with pll2 := (value &&& 0x3f) % 2 ^ 32 }
    if 49 < s1.pll2 then
      ⟨s1, system_clock_scale, [Fm3CrPrint.invalid_pll s1.pll2]⟩
    else
      fm3_cr_update_system_clock s1 system_clock_scale
  else
    ⟨s, system_clock_scale, []⟩

/-- Device reset: only the derived master clock is written; the published
clock scale is not touched. -/
def fm3_cr_reset (s : Fm3CrState) (system_clock_scale : Nat) : Fm3CrResult :=
  ⟨{ s with master_clk_hz := FM3_CR_HI_OSC_HZ }, system_clock_scale, []⟩

/-- The part of `fm3_cr_init` that touches state: the published clock scale
is set to the configured main oscillator frequency. -/
def fm3_cr_init (s : Fm3CrState) : Fm3CrResult :=
  ⟨s, s.main_clk_hz, []⟩

/-! ## Interrupt status aggregator and router (`hw/fm3_int.c`) -/

/-- Monitor register of external-interrupt channels 0-7. -/
def FM3_INT_IRQ04MON : Nat := 0x24

/-- Monitor register of external-interrupt channels 8-31. -/
def FM3_INT_IRQ05MON : Nat := 0x28

/-- MFS channel 0 receive monitor. -/
def FM3_INT_IRQ07MON : Nat := 0x30

/-- MFS channel 0 transmit/status monitor. -/
def FM3_INT_IRQ08MON : Nat := 0x34

/-- MFS channel 1 receive monitor. -/
def FM3_INT_IRQ09MON : Nat := 0x38

/-- MFS channel 1 transmit/status monitor. -/
def FM3_INT_IRQ10MON : Nat := 0x3C

/-- MFS channel 2 receive monitor. -/
def FM3_INT_IRQ11MON : Nat := 0x40

/-- MFS channel 2 transmit/status monitor. -/
def FM3_INT_IRQ12MON : Nat := 0x44

/-- MFS channel 3 receive monitor. -/
def FM3_INT_IRQ13MON : Nat := 0x48

/-- MFS channel 3 transmit/status monitor. -/
def FM3_INT_IRQ14MON : Nat := 0x4C

/-- MFS channel 4 receive monitor. -/
def FM3_INT_IRQ15MON : Nat := 0x50

/-- MFS channel 4 transmit/status monitor. -/
def FM3_INT_IRQ16MON : Nat := 0x54

/-- MFS channel 5 receive monitor. -/
def FM3_INT_IRQ17MON : Nat := 0x58

/-- MFS channel 5 transmit/status monitor. -/
def FM3_INT_IRQ18MON : Nat := 0x5C

/-- MFS channel 6 receive monitor. -/
def FM3_INT_IRQ19MON : Nat := 0x60

/-- MFS channel 6 transmit/status monitor. -/
def FM3_INT_IRQ20MON : Nat := 0x64

/-- MFS channel 7 receive monitor. -/
def FM3_INT_IRQ21MON : Nat := 0x68

/-- MFS channel 7 transmit/status monitor. -/
def FM3_INT_IRQ22MON : Nat := 0x6C

/-- Modelled from the spec: the query functions of the sibling peripherals
(`fm3_exti_get_irq_stat`, `fm3_uart_get_rx_irq_stat`,
`fm3_uart_get_tx_irq_stat`, `fm3_uart_get_stat_irq_stat`, declared in
`fm3.h`) are not among the sources. Each hands back the pending flag of the
channel or port whose index it is given; the record is the state of the
siblings at the time of a read. -/
structure Fm3Siblings where
  fm3_exti_get_irq_stat : Nat → Bool
  fm3_uart_get_rx_irq_stat : Nat → Bool
  fm3_uart_get_tx_irq_stat : Nat → Bool
  fm3_uart_get_stat_irq_stat : Nat → Bool

/-- A call that `fm3_int_read` makes into a sibling peripheral, with the
index it passes. -/
inductive Fm3IntQuery where
  | exti (ch : Nat)
  | uart_rx (port : Nat)
  | uart_tx (port : Nat)
  | uart_stat (port : Nat)
  deriving DecidableEq, Repr

/-- The device (`Fm3IntState`), without the bus plumbing. `parent` is the
array of output lines, kept as the level each line is driven to; its length
is `FM3_IRQ_NUM`. -/
structure Fm3IntState where
  parent : List Int
  extint_0_7 : Nat
  extint_8_31 : Nat
  mfs_rx : List Nat
  mfs_tx_status : List Nat
  deriving DecidableEq, Repr

/-- Modelled from the spec: `qemu_set_irq` belongs to the interrupt
plumbing, which is not among the sources; it drives the output line behind
the handle to `level`. The handle `parent[n]` is line `n`. -/
def qemu_set_irq (lines : List Int) (n : Nat) (level : Int) : List Int :=
  lines.set n level

/-- The input-line handler: `qemu_set_irq(s->parent[irq], level)`. -/
def fm3_int_set_irq (s : Fm3IntState) (irq : Nat) (level : Int) : Fm3IntState :=
  { s with parent := qemu_set_irq s.parent irq level }

/-- The read handler: the value read and the sibling queries made, in
order. The `switch` is over `offset & 0xff`; the port index of the MFS
registers is computed from `offset` itself. The handler does not look at the
device state. Offsets are those of the 0x1000-byte window, for which the
index fits the `int` it is stored in. -/
def fm3_int_read (q : Fm3Siblings) (offset : Nat) : Nat × List Fm3IntQuery :=
  let reg := offset &&& 0xff
  if reg = FM3_INT_IRQ04MON then
    (List.range' 0 8).foldl
      (fun acc i =>
        (acc.1 ||| ((q.fm3_exti_get_irq_stat i).toNat <<< i),
          acc.2 ++ [Fm3IntQuery.exti i]))
      (0, [])
  else if reg = FM3_INT_IRQ05MON then
    (List.range' 8 24).foldl
      (fun acc i =>
        (acc.1 ||| ((q.fm3_exti_get_irq_stat i).toNat <<< (i - 8)),
          acc.2 ++ [Fm3IntQuery.exti i]))
      (0, [])
  else if reg = FM3_INT_IRQ07MON ∨ reg = FM3_INT_IRQ09MON ∨ reg = FM3_INT_IRQ11MON
      ∨ reg = FM3_INT_IRQ13MON ∨ reg = FM3_INT_IRQ15MON ∨ reg = FM3_INT_IRQ17MON
      ∨ reg = FM3_INT_IRQ19MON ∨ reg = FM3_INT_IRQ21MON then
    let i := (offset - FM3_INT_IRQ07MON) >>> 3
    ((q.fm3_uart_get_rx_irq_stat i).toNat, [Fm3IntQuery.uart_rx i])
  else if reg = FM3_INT_IRQ08MON ∨ reg = FM3_INT_IRQ10MON ∨ reg = FM3_INT_IRQ12MON
      ∨ reg = FM3_INT_IRQ14MON ∨ reg = FM3_INT_IRQ16MON ∨ reg = FM3_INT_IRQ18MON
      ∨ reg = FM3_INT_IRQ20MON ∨ reg = FM3_INT_IRQ22MON then
    let i := (offset - FM3_INT_IRQ08MON) >>> 3
    ((q.fm3_uart_get_tx_irq_stat i).toNat
        ||| ((q.fm3_uart_get_stat_irq_stat i).toNat <<< 1),
      [Fm3IntQuery.uart_tx i, Fm3IntQuery.uart_stat i])
  else
    (0, [])

/-- The write handler: the monitor registers are read-only, nothing is
done. -/
def fm3_int_write (s : Fm3IntState) (_offset _value : Nat) : Fm3IntState := s

/-! ## Watchdog theorems -/

/-- C1: the lock transition function is the specified table. From LOCKED the
code 0x1ACCE551 gives STAGE1_UNLOCKED and any other code LOCKED; from
STAGE1_UNLOCKED the code 0xE5331AAE gives UNLOCKED and any other code
(0x1ACCE551 included) LOCKED; from UNLOCKED every code gives LOCKED. -/
theorem fm3_wdt_unlock_state_table (code : Nat) :
    fm3_wdt_unlock_state FM3_WDT_STATE_LOCK_ALL code
        = (if code = 0x1ACCE551 then FM3_WDT_STATE_LOCK_CTL
            else FM3_WDT_STATE_LOCK_ALL)
      ∧ fm3_wdt_unlock_state FM3_WDT_STATE_LOCK_CTL code
        = (if code = 0xE5331AAE then FM3_WDT_STATE_UNLOCK
            else FM3_WDT_STATE_LOCK_ALL)
      ∧ fm3_wdt_unlock_state FM3_WDT_STATE_LOCK_CTL 0x1ACCE551
        = FM3_WDT_STATE_LOCK_ALL
      ∧ fm3_wdt_unlock_state FM3_WDT_STATE_UNLOCK code = FM3_WDT_STATE_LOCK_ALL
      ∧ fm3_wdt_unlock_state FM3_WDT_STATE_UNLOCK 0x1ACCE551
        = FM3_WDT_STATE_LOCK_ALL
      ∧ fm3_wdt_unlock_state FM3_WDT_STATE_UNLOCK 0xE5331AAE
        = FM3_WDT_STATE_LOCK_ALL := by
  refine ⟨?_, ?_, ?_, ?_, ?_, ?_⟩ <;>
    simp [fm3_wdt_unlock_state, FM3_WDT_UNLOCK, FM3_WDT_UNLOCK_CTL]

/-- C2: while the hardware lock state is not UNLOCKED, no register write
changes the stored hardware control value, and a write to the control
register (offset 0x8) changes nothing in the device and prints nothing. -/
theorem fm3_wdt_control_locked (s : Fm3WdtState)
    (hlocked : s.hw.state ≠ FM3_WDT_STATE_UNLOCK) (offset value : Nat) :
    (fm3_wdt_write s offset value).1.hw.control = s.hw.control
      ∧ fm3_wdt_write s 0x8 value = (s, []) := by
  constructor
  · unfold fm3_wdt_write
    split_ifs <;> rfl
  · simp [fm3_wdt_write, FM3_WDT_OFFSET_HW_CTL, hlocked]

/-- C2 at a concrete locked device: a control write of 3 is dropped. -/
theorem fm3_wdt_control_locked_witness :
    (⟨⟨FM3_WDT_STATE_LOCK_ALL, 0⟩, ⟨FM3_WDT_STATE_LOCK_CTL, 1⟩⟩ : Fm3WdtState).hw.state
        ≠ FM3_WDT_STATE_UNLOCK
      ∧ (fm3_wdt_write ⟨⟨FM3_WDT_STATE_LOCK_ALL, 0⟩, ⟨FM3_WDT_STATE_LOCK_CTL, 1⟩⟩
          0xC00 0xE5331AAE).1.hw.control = 1
      ∧ fm3_wdt_write ⟨⟨FM3_WDT_STATE_LOCK_ALL, 0⟩, ⟨FM3_WDT_STATE_LOCK_CTL, 1⟩⟩ 0x8 3
        = (⟨⟨FM3_WDT_STATE_LOCK_ALL, 0⟩, ⟨FM3_WDT_STATE_LOCK_CTL, 1⟩⟩, []) :=
  ⟨by decide,
    fm3_wdt_control_locked ⟨⟨FM3_WDT_STATE_LOCK_ALL, 0⟩, ⟨FM3_WDT_STATE_LOCK_CTL, 1⟩⟩
      (by decide) 0xC00 0xE5331AAE |>.1,
    fm3_wdt_control_locked ⟨⟨FM3_WDT_STATE_LOCK_ALL, 0⟩, ⟨FM3_WDT_STATE_LOCK_CTL, 1⟩⟩
      (by decide) 0xC00 3 |>.2⟩

/-- C3: from a freshly initialised device, writing 0x1ACCE551 and then
0xE5331AAE to the lock register (0xC00) and then `v` to the control register
(0x8) makes the control read `v & 3` and the lock status read 0; any further
lock-register write `c` makes the lock status read 1, and a control write
`w` after that is dropped: the control still reads `v & 3`. -/
theorem fm3_wdt_unlock_scenario (s0 : Fm3WdtState) (v c w : Nat) :
    let s1 := (fm3_wdt_write (fm3_wdt_init s0) 0xC00 0x1ACCE551).1
    let s2 := (fm3_wdt_write s1 0xC00 0xE5331AAE).1
    let s3 := (fm3_wdt_write s2 0x8 v).1
    let s4 := (fm3_wdt_write s3 0xC00 c).1
    let s5 := (fm3_wdt_write s4 0x8 w).1
    (fm3_wdt_init s0).hw.state = FM3_WDT_STATE_LOCK_ALL
      ∧ (fm3_wdt_read s3 0x8).2 = v &&& 3
      ∧ (fm3_wdt_read s3 0xC00).2 = 0
      ∧ (fm3_wdt_read s4 0xC00).2 = 1
      ∧ s5 = s4
      ∧ (fm3_wdt_read s5 0x8).2 = v &&& 3 := by
  have h3 : (v &&& 3) % 4294967296 = v &&& 3 :=
    Nat.mod_eq_of_lt (lt_of_le_of_lt Nat.and_le_right (by norm_num))
  have h33 : v &&& 3 &&& 3 = v &&& 3 := by
    have h : (3 : Nat) &&& 3 = 3 := by decide
    rw [Nat.and_assoc, h]
  simp [fm3_wdt_write, fm3_wdt_read, fm3_wdt_init, fm3_wdt_unlock_state,
    FM3_WDT_OFFSET_HW_CTL, FM3_WDT_OFFSET_HW_LCK, FM3_WDT_UNLOCK, FM3_WDT_UNLOCK_CTL,
    h3, h33]

/-- C4: a read of the hardware lock-status register (0xC00) returns 1 when
the hardware lock state is not UNLOCKED and 0 exactly when it is UNLOCKED,
and hands back the device state it was given. -/
theorem fm3_wdt_lock_status_read (s : Fm3WdtState) :
    (fm3_wdt_read s 0xC00).1 = s
      ∧ (fm3_wdt_read s 0xC00).2
          = (if s.hw.state = FM3_WDT_STATE_UNLOCK then 0 else 1)
      ∧ ((fm3_wdt_read s 0xC00).2 = 0 ↔ s.hw.state = FM3_WDT_STATE_UNLOCK)
      ∧ ((fm3_wdt_read s 0xC00).2 = 1 ↔ s.hw.state ≠ FM3_WDT_STATE_UNLOCK) := by
  by_cases h : s.hw.state = FM3_WDT_STATE_UNLOCK <;>
    simp [fm3_wdt_read, FM3_WDT_OFFSET_HW_CTL, FM3_WDT_OFFSET_HW_LCK, h]

/-! ## Clock controller: bit-field lemmas -/

/-- The selector field of the stored mode-control byte is the selector field
of the written value. -/
theorem scm_selector_of_written (v : Nat) :
    (((v &&& 0xff) % 2 ^ 32) >>> 5) &&& 3 = (v >>> 5) &&& 3 := by
  have h255 : v &&& 0xff = v % 256 := Nat.and_pow_two_sub_one_eq_mod v 8
  have h3 : ∀ x : Nat, x &&& 3 = x % 4 := fun x => Nat.and_pow_two_sub_one_eq_mod x 2
  rw [h255, h3, h3, Nat.shiftRight_eq_div_pow, Nat.shiftRight_eq_div_pow]
  omega

/-- Masking the stored mode-control byte with a mask inside the byte is
masking the written value. -/
theorem scm_bit_of_written (v m : Nat) (hm : 0xff &&& m = m) :
    ((v &&& 0xff) % 2 ^ 32) &&& m = v &&& m := by
  have hlt : v &&& 0xff < 2 ^ 32 :=
    lt_of_le_of_lt Nat.and_le_right (by norm_num)
  rw [Nat.mod_eq_of_lt hlt, Nat.and_assoc, hm]

/-- A masked field narrower than 32 bits is not changed by the store. -/
theorem and_mask_mod (v m : Nat) (hm : m < 2 ^ 32) : (v &&& m) % 2 ^ 32 = v &&& m :=
  Nat.mod_eq_of_lt (lt_of_le_of_lt Nat.and_le_right hm)

/-- The two-bit selector takes one of four values. -/
theorem selector_cases (scm : Nat) :
    (scm >>> 5) &&& 3 = 0 ∨ (scm >>> 5) &&& 3 = 1 ∨ (scm >>> 5) &&& 3 = 2
      ∨ (scm >>> 5) &&& 3 = 3 := by
  have hle : (scm >>> 5) &&& 3 ≤ 3 := Nat.and_le_right
  omega

/-- The recomputation leaves `master_clk_hz` as the first `switch` set it,
whatever the second `switch` does. -/
theorem update_master (s : Fm3CrState) (scale : Nat) :
    (fm3_cr_update_system_clock s scale).s.master_clk_hz =
      if (s.scm >>> 5) &&& 3 = 0 then FM3_CR_HI_OSC_HZ
      else if (s.scm >>> 5) &&& 3 = 1 then
        (if s.scm &&& 8 ≠ 0 then s.main_clk_hz else 0)
      else if (s.scm >>> 5) &&& 3 = 2 then
        (if s.scm &&& 16 ≠ 0 then fm3_cr_get_pll s else 0)
      else s.master_clk_hz := by
  unfold fm3_cr_update_system_clock
  simp only [Nat.reduceShiftLeft]
  rcases selector_cases s.scm with h | h | h | h
  · simp only [h, if_true]
    split <;> rfl
  · simp only [h]
    by_cases hb : s.scm &&& 8 = 0
    · simp [hb]
      split <;> rfl
    · simp [hb]
      split <;> rfl
  · simp only [h]
    by_cases hb : s.scm &&& 16 = 0
    · simp [hb]
      split <;> rfl
    · simp [hb]
      split <;> rfl
  · simp [h]

/-- With both selector bits set the recomputation prints and returns at
once. -/
theorem update_invalid_selector (s : Fm3CrState) (scale : Nat)
    (h : (s.scm >>> 5) &&& 3 = 3) :
    fm3_cr_update_system_clock s scale
      = ⟨s, scale, [Fm3CrPrint.invalid_master_clock s.scm]⟩ := by
  simp [fm3_cr_update_system_clock, h]

/-- The recomputation writes no field of the device other than
`master_clk_hz`. -/
theorem update_frame (s : Fm3CrState) (scale : Nat) :
    (fm3_cr_update_system_clock s scale).s
      = { s with master_clk_hz := (fm3_cr_update_system_clock s scale).s.master_clk_hz } := by
  unfold fm3_cr_update_system_clock
  simp only [Nat.reduceShiftLeft]
  rcases selector_cases s.scm with h | h | h | h
  · simp only [h, if_true]
    split <;> rfl
  · simp only [h]
    by_cases hb : s.scm &&& 8 = 0
    · simp [hb]
      split <;> rfl
    · simp [hb]
      split <;> rfl
  · simp only [h]
    by_cases hb : s.scm &&& 16 = 0
    · simp [hb]
      split <;> rfl
    · simp [hb]
      split <;> rfl
  · simp [h]

/-! ## Clock controller theorems -/

/-- C5: when the source selector of the state is valid (bits [6:5] of the
mode-control value are not both set) and the base-divisor field `d` is in
0..6, the recomputation publishes `master_clk_hz / {1,2,3,4,6,8,16}[d]`,
with `master_clk_hz` the value the recomputation has just derived. -/
theorem fm3_cr_clock_scale_divided (s : Fm3CrState) (scale : Nat)
    (hsel : (s.scm >>> 5) &&& 3 ≠ 3) (hbsc : s.bsc ≤ 6) :
    (fm3_cr_update_system_clock s scale).system_clock_scale
      = (fm3_cr_update_system_clock s scale).s.master_clk_hz
          / ([1, 2, 3, 4, 6, 8, 16] : List Nat).getD s.bsc 0 := by
  obtain ⟨scm, bsc, pll1, pll2, main_clk_hz, sub_clk_hz, master_clk_hz⟩ := s
  simp only at hsel hbsc
  have e1 : ∀ x : Nat, x >>> 1 = x / 2 := fun x => Nat.shiftRight_eq_div_pow x 1
  have e2 : ∀ x : Nat, x >>> 2 = x / 4 := fun x => Nat.shiftRight_eq_div_pow x 2
  have e3 : ∀ x : Nat, x >>> 3 = x / 8 := fun x => Nat.shiftRight_eq_div_pow x 3
  have e4 : ∀ x : Nat, x >>> 4 = x / 16 := fun x => Nat.shiftRight_eq_div_pow x 4
  rcases selector_cases scm with h | h | h | h
  · interval_cases bsc <;>
      simp [fm3_cr_update_system_clock, h, e1, e2, e3, e4]
  · interval_cases bsc <;>
      by_cases hb : scm &&& 8 = 0 <;>
      simp [fm3_cr_update_system_clock, h, hb, e1, e2, e3, e4]
  · interval_cases bsc <;>
      by_cases hb : scm &&& 16 = 0 <;>
      simp [fm3_cr_update_system_clock, h, hb, e1, e2, e3, e4]
  · exact absurd h hsel

/-- C5 at a concrete state: main oscillator selected and enabled
(mode-control 0x28), base divisor 4, main oscillator 4 MHz: the published
scale is 4000000 / 6. -/
theorem fm3_cr_clock_scale_divided_witness :
    ((⟨0x28, 4, 0, 0, 4000000, 32768, 0⟩ : Fm3CrState).scm >>> 5) &&& 3 ≠ 3
      ∧ (⟨0x28, 4, 0, 0, 4000000, 32768, 0⟩ : Fm3CrState).bsc ≤ 6
      ∧ (fm3_cr_update_system_clock ⟨0x28, 4, 0, 0, 4000000, 32768, 0⟩ 0).system_clock_scale
          = (fm3_cr_update_system_clock ⟨0x28, 4, 0, 0, 4000000, 32768, 0⟩ 0).s.master_clk_hz
              / ([1, 2, 3, 4, 6, 8, 16] : List Nat).getD
                  (⟨0x28, 4, 0, 0, 4000000, 32768, 0⟩ : Fm3CrState).bsc 0
      ∧ (fm3_cr_update_system_clock ⟨0x28, 4, 0, 0, 4000000, 32768, 0⟩ 0).system_clock_scale
          = 666666 :=
  ⟨by decide, by decide,
    fm3_cr_clock_scale_divided ⟨0x28, 4, 0, 0, 4000000, 32768, 0⟩ 0 (by decide) (by decide),
    by decide⟩

/-- C6: a write of `v` to mode-control (offset 0) leaves `master_clk_hz` at
4000000 when bits [6:5] of `v` are 0; at `main_clk_hz` or 0 according to bit 3
when they are 1; at the 32-bit PLL output `main_clk_hz / K * N` or 0 according
to bit 4 when they are 2, with `K = ((pll1 >> 4) & 0xF) + 1` and
`N = (pll2 & 0x3F) + 1`; and at its old value when they are 3. The base
divisor plays no part. -/
theorem fm3_cr_master_clock_selection (s : Fm3CrState) (scale v : Nat) :
    (fm3_cr_write s scale 0 v).s.master_clk_hz =
      if (v >>> 5) &&& 3 = 0 then 4000000
      else if (v >>> 5) &&& 3 = 1 then
        (if v &&& 8 ≠ 0 then s.main_clk_hz else 0)
      else if (v >>> 5) &&& 3 = 2 then
        (if v &&& 16 ≠ 0 then
          (s.main_clk_hz / (((s.pll1 >>> 4) &&& 0xF) + 1) * ((s.pll2 &&& 0x3F) + 1))
            % 2 ^ 32
        else 0)
      else s.master_clk_hz := by
  have hs := scm_selector_of_written v
  have h8 := scm_bit_of_written v 8 (by decide)
  have h16 := scm_bit_of_written v 16 (by decide)
  have hw : fm3_cr_write s scale 0 v
      = fm3_cr_update_system_clock { s with scm := (v &&& 0xff) % 2 ^ 32 } scale := by
    simp [fm3_cr_write, FM3_CR_SCM_CTL_OFFSET]
  rw [hw, update_master]
  simp only [hs, h8, h16]
  rfl

/-- C7: a write to PLL control 2 (offset 0x3c) whose masked value `v & 0x3F`
exceeds 49 stores the masked value in `pll2`, reports the invalid divisor, and
leaves `master_clk_hz`, the published clock scale and every other field as
they were. -/
theorem fm3_cr_pll2_rejected (s : Fm3CrState) (scale v : Nat)
    (hbig : 49 < v &&& 0x3F) :
    (fm3_cr_write s scale 0x3c v).s.pll2 = v &&& 0x3F
      ∧ (fm3_cr_write s scale 0x3c v).s.master_clk_hz = s.master_clk_hz
      ∧ (fm3_cr_write s scale 0x3c v).system_clock_scale = scale
      ∧ (fm3_cr_write s scale 0x3c v).s.scm = s.scm
      ∧ (fm3_cr_write s scale 0x3c v).s.bsc = s.bsc
      ∧ (fm3_cr_write s scale 0x3c v).s.pll1 = s.pll1
      ∧ (fm3_cr_write s scale 0x3c v).s = { s with pll2 := v &&& 0x3F }
      ∧ (fm3_cr_write s scale 0x3c v).printed = [Fm3CrPrint.invalid_pll (v &&& 0x3F)] := by
  have hm : (v &&& 0x3f) % 2 ^ 32 = v &&& 0x3f := and_mask_mod v 0x3f (by norm_num)
  have hw : fm3_cr_write s scale 0x3c v
      = ⟨{ s with pll2 := v &&& 0x3F }, scale, [Fm3CrPrint.invalid_pll (v &&& 0x3F)]⟩ := by
    unfold fm3_cr_write
    simp only [FM3_CR_SCM_CTL_OFFSET, FM3_CR_BSC_PSR_OFFSET, FM3_CR_PLL_CTL1_OFFSET,
      FM3_CR_PLL_CTL2_OFFSET, hm]
    simp [hbig]
  rw [hw]
  exact ⟨rfl, rfl, rfl, rfl, rfl, rfl, rfl, rfl⟩

/-- C7 at a concrete state: writing 50 to PLL control 2 of a device running
at 4 MHz keeps master clock and published scale at 4000000. -/
theorem fm3_cr_pll2_rejected_witness :
    49 < 50 &&& 0x3F
      ∧ (fm3_cr_write ⟨0, 0, 0, 0, 4000000, 32768, 4000000⟩ 4000000 0x3c 50).s.pll2 = 50
      ∧ (fm3_cr_write ⟨0, 0, 0, 0, 4000000, 32768, 4000000⟩ 4000000 0x3c 50).s.master_clk_hz
          = 4000000
      ∧ (fm3_cr_write ⟨0, 0, 0, 0, 4000000, 32768, 4000000⟩ 4000000 0x3c 50).system_clock_scale
          = 4000000 :=
  have h := fm3_cr_pll2_rejected ⟨0, 0, 0, 0, 4000000, 32768, 4000000⟩ 4000000 50 (by decide)
  ⟨by decide, h.1, h.2.1, h.2.2.1⟩

/-- C8: a write to mode-control (offset 0) whose value has bits [6:5] both
set leaves `master_clk_hz` and the published clock scale as they were. -/
theorem fm3_cr_invalid_selector (s : Fm3CrState) (scale v : Nat)
    (hsel : (v >>> 5) &&& 3 = 3) :
    (fm3_cr_write s scale 0 v).s.master_clk_hz = s.master_clk_hz
      ∧ (fm3_cr_write s scale 0 v).system_clock_scale = scale := by
  have hw : fm3_cr_write s scale 0 v
      = fm3_cr_update_system_clock { s with scm := (v &&& 0xff) % 2 ^ 32 } scale := by
    simp [fm3_cr_write, FM3_CR_SCM_CTL_OFFSET]
  have hs : (({ s with scm := (v &&& 0xff) % 2 ^ 32 } : Fm3CrState).scm >>> 5) &&& 3 = 3 := by
    show (((v &&& 0xff) % 2 ^ 32) >>> 5) &&& 3 = 3
    rw [scm_selector_of_written, hsel]
  rw [hw, update_invalid_selector _ _ hs]
  exact ⟨rfl, rfl⟩

/-- C8 at a concrete state: writing 0x60 to mode-control of a device whose
master clock is 12 MHz and whose published scale is 3 MHz changes neither. -/
theorem fm3_cr_invalid_selector_witness :
    (0x60 >>> 5) &&& 3 = 3
      ∧ (fm3_cr_write ⟨0x28, 3, 0, 0, 12000000, 32768, 12000000⟩ 3000000 0 0x60).s.master_clk_hz
          = 12000000
      ∧ (fm3_cr_write ⟨0x28, 3, 0, 0, 12000000, 32768, 12000000⟩ 3000000 0 0x60).system_clock_scale
          = 3000000 :=
  ⟨by decide,
    fm3_cr_invalid_selector ⟨0x28, 3, 0, 0, 12000000, 32768, 12000000⟩ 3000000 0x60
      (by decide)⟩

/-- C9: the low-speed oscillator cannot be selected. The selector that the
recomputation switches on is the two-bit field `(scm >> 5) & 3`, so a
mode-control write of 0x80 (source-select field 0b100) stores 0x80, selects
source 0 and leaves `master_clk_hz` at 4000000, not 100000; and for every
written value the resulting `master_clk_hz` is 4000000, 0, `main_clk_hz`, the
PLL output or the old value, never the low-speed constant as such. -/
theorem fm3_cr_low_osc_not_selected (s : Fm3CrState) (scale : Nat) :
    (fm3_cr_write s scale 0 0x80).s.scm = 0x80
      ∧ (fm3_cr_write s scale 0 0x80).s.master_clk_hz = 4000000
      ∧ ∀ v : Nat,
          (fm3_cr_write s scale 0 v).s.master_clk_hz = 4000000
            ∨ (fm3_cr_write s scale 0 v).s.master_clk_hz = 0
            ∨ (fm3_cr_write s scale 0 v).s.master_clk_hz = s.main_clk_hz
            ∨ (fm3_cr_write s scale 0 v).s.master_clk_hz = fm3_cr_get_pll s
            ∨ (fm3_cr_write s scale 0 v).s.master_clk_hz = s.master_clk_hz := by
  have hw : ∀ v : Nat, fm3_cr_write s scale 0 v
      = fm3_cr_update_system_clock { s with scm := (v &&& 0xff) % 2 ^ 32 } scale := by
    intro v
    simp [fm3_cr_write, FM3_CR_SCM_CTL_OFFSET]
  refine ⟨?_, ?_, ?_⟩
  · rw [hw, update_frame]
    rfl
  · have h0 : (((0x80 &&& 0xff) % 2 ^ 32) >>> 5) &&& 3 = 0 := by decide
    rw [hw, update_master]
    exact if_pos h0
  · intro v
    rw [hw, update_master]
    split_ifs
    · exact Or.inl rfl
    · exact Or.inr (Or.inr (Or.inl rfl))
    · exact Or.inr (Or.inl rfl)
    · exact Or.inr (Or.inr (Or.inr (Or.inl rfl)))
    · exact Or.inr (Or.inl rfl)
    · exact Or.inr (Or.inr (Or.inr (Or.inr rfl)))

/-- C10: the base-divisor register keeps only two bits. A write of 4, 5 or 6
to offset 0x10 stores 0, 1 or 2, which is what a read returns; and on a
device running from the 4 MHz high-speed oscillator the published scale after
these writes is 4000000, 2000000 and 1333333 (factors 1, 2, 3), not
4000000 / 6, / 8 and / 16. -/
theorem fm3_cr_bsc_write_two_bits (s : Fm3CrState) (scale : Nat) :
    (fm3_cr_read (fm3_cr_write s scale 0x10 4).s 0x10).2 = 0
      ∧ (fm3_cr_read (fm3_cr_write s scale 0x10 5).s 0x10).2 = 1
      ∧ (fm3_cr_read (fm3_cr_write s scale 0x10 6).s 0x10).2 = 2
      ∧ (fm3_cr_write ⟨0, 0, 0, 0, 4000000, 32768, 4000000⟩ 4000000 0x10 4).system_clock_scale
          = 4000000
      ∧ (fm3_cr_write ⟨0, 0, 0, 0, 4000000, 32768, 4000000⟩ 4000000 0x10 5).system_clock_scale
          = 2000000
      ∧ (fm3_cr_write ⟨0, 0, 0, 0, 4000000, 32768, 4000000⟩ 4000000 0x10 6).system_clock_scale
          = 1333333 := by
  have hw : ∀ v : Nat, fm3_cr_write s scale 0x10 v
      = fm3_cr_update_system_clock { s with bsc := (v &&& 3) % 2 ^ 32 } scale := by
    intro v
    simp [fm3_cr_write, FM3_CR_SCM_CTL_OFFSET, FM3_CR_BSC_PSR_OFFSET]
  have hr : ∀ t : Fm3CrState, (fm3_cr_read t 0x10).2 = t.bsc := by
    intro t
    simp [fm3_cr_read, FM3_CR_SCM_CTL_OFFSET, FM3_CR_SCM_STR_OFFSET, FM3_CR_BSC_PSR_OFFSET]
  refine ⟨?_, ?_, ?_, by decide, by decide, by decide⟩
  · rw [hr, hw, update_frame]
    rfl
  · rw [hr, hw, update_frame]
    rfl
  · rw [hr, hw, update_frame]
    rfl

/-! ## Clock controller: repeated writes and reset -/

/-- Running the recomputation again on its own result changes neither the
device nor the published scale, and prints no base-clock notice. -/
theorem update_idem (s : Fm3CrState) (scale : Nat) :
    (fm3_cr_update_system_clock (fm3_cr_update_system_clock s scale).s
        (fm3_cr_update_system_clock s scale).system_clock_scale).s
        = (fm3_cr_update_system_clock s scale).s
      ∧ (fm3_cr_update_system_clock (fm3_cr_update_system_clock s scale).s
        (fm3_cr_update_system_clock s scale).system_clock_scale).system_clock_scale
        = (fm3_cr_update_system_clock s scale).system_clock_scale
      ∧ ∀ hz, Fm3CrPrint.base_clock hz ∉
          (fm3_cr_update_system_clock (fm3_cr_update_system_clock s scale).s
            (fm3_cr_update_system_clock s scale).system_clock_scale).printed := by
  obtain ⟨scm, bsc, pll1, pll2, main_clk_hz, sub_clk_hz, master_clk_hz⟩ := s
  have hb : bsc = 0 ∨ bsc = 1 ∨ bsc = 2 ∨ bsc = 3 ∨ bsc = 4 ∨ bsc = 5 ∨ bsc = 6
      ∨ (bsc ≠ 0 ∧ bsc ≠ 1 ∧ bsc ≠ 2 ∧ bsc ≠ 3 ∧ bsc ≠ 4 ∧ bsc ≠ 5 ∧ bsc ≠ 6) := by omega
  rcases selector_cases scm with h | h | h | h
  · rcases hb with b | b | b | b | b | b | b | ⟨b0, b1, b2, b3, b4, b5, b6⟩ <;>
      simp [fm3_cr_update_system_clock, h, *]
  · by_cases h8 : scm &&& 8 = 0 <;>
    rcases hb with b | b | b | b | b | b | b | ⟨b0, b1, b2, b3, b4, b5, b6⟩ <;>
      simp [fm3_cr_update_system_clock, h, h8, *]
  · by_cases h16 : scm &&& 16 = 0 <;>
    rcases hb with b | b | b | b | b | b | b | ⟨b0, b1, b2, b3, b4, b5, b6⟩ <;>
      simp [fm3_cr_update_system_clock, fm3_cr_get_pll, h, h16, *]
  · simp [fm3_cr_update_system_clock, h]

/-- One recomputation prints at most one message. -/
theorem update_printed_length (s : Fm3CrState) (scale : Nat) :
    (fm3_cr_update_system_clock s scale).printed.length ≤ 1 := by
  unfold fm3_cr_update_system_clock
  simp only []
  split
  · simp
  · split
    · simp
    · split_ifs <;> simp

/-- Storing again the mode-control value that a state already holds. -/
theorem with_scm_self (t : Fm3CrState) (x : Nat) (h : t.scm = x) :
    { t with scm := x } = t := by
  cases t; cases h; rfl

/-- Storing again the base divisor that a state already holds. -/
theorem with_bsc_self (t : Fm3CrState) (x : Nat) (h : t.bsc = x) :
    { t with bsc := x } = t := by
  cases t; cases h; rfl

/-- Storing again the PLL control 1 value that a state already holds. -/
theorem with_pll1_self (t : Fm3CrState) (x : Nat) (h : t.pll1 = x) :
    { t with pll1 := x } = t := by
  cases t; cases h; rfl

/-- Storing again the PLL control 2 value that a state already holds. -/
theorem with_pll2_self (t : Fm3CrState) (x : Nat) (h : t.pll2 = x) :
    { t with pll2 := x } = t := by
  cases t; cases h; rfl

/-- A mode-control write stores the low byte and recomputes. -/
theorem write_scm (s : Fm3CrState) (scale v : Nat) :
    fm3_cr_write s scale 0 v
      = fm3_cr_update_system_clock { s with scm := (v &&& 0xff) % 2 ^ 32 } scale := by
  simp [fm3_cr_write, FM3_CR_SCM_CTL_OFFSET]

/-- A base-divisor write stores the low two bits and recomputes. -/
theorem write_bsc (s : Fm3CrState) (scale v : Nat) :
    fm3_cr_write s scale 0x10 v
      = fm3_cr_update_system_clock { s with bsc := (v &&& 3) % 2 ^ 32 } scale := by
  simp [fm3_cr_write, FM3_CR_SCM_CTL_OFFSET, FM3_CR_BSC_PSR_OFFSET]

/-- A PLL control 1 write stores the low 32 bits and recomputes. -/
theorem write_pll1 (s : Fm3CrState) (scale v : Nat) :
    fm3_cr_write s scale 0x38 v
      = fm3_cr_update_system_clock { s with pll1 := v % 2 ^ 32 } scale := by
  simp [fm3_cr_write, FM3_CR_SCM_CTL_OFFSET, FM3_CR_BSC_PSR_OFFSET,
    FM3_CR_PLL_CTL1_OFFSET]

/-- A PLL control 2 write stores the low six bits, and recomputes unless the
stored value exceeds 49. -/
theorem write_pll2 (s : Fm3CrState) (scale v : Nat) :
    fm3_cr_write s scale 0x3c v
      = if 49 < v &&& 0x3f then
          ⟨{ s with pll2 := v &&& 0x3f }, scale, [Fm3CrPrint.invalid_pll (v &&& 0x3f)]⟩
        else fm3_cr_update_system_clock { s with pll2 := v &&& 0x3f } scale := by
  have hm : (v &&& 0x3f) % 2 ^ 32 = v &&& 0x3f := and_mask_mod v 0x3f (by norm_num)
  unfold fm3_cr_write
  simp only [FM3_CR_SCM_CTL_OFFSET, FM3_CR_BSC_PSR_OFFSET, FM3_CR_PLL_CTL1_OFFSET,
    FM3_CR_PLL_CTL2_OFFSET, hm]
  simp

/-- A write to any other offset does nothing. -/
theorem write_other (s : Fm3CrState) (scale offset v : Nat)
    (h0 : offset ≠ 0) (h1 : offset ≠ 0x10) (h2 : offset ≠ 0x38) (h3 : offset ≠ 0x3c) :
    fm3_cr_write s scale offset v = ⟨s, scale, []⟩ := by
  simp [fm3_cr_write, FM3_CR_SCM_CTL_OFFSET, FM3_CR_BSC_PSR_OFFSET,
    FM3_CR_PLL_CTL1_OFFSET, FM3_CR_PLL_CTL2_OFFSET, h0, h1, h2, h3]

/-- A register write followed by the same write: the second one returns the
device and the published scale of the first, and prints no base-clock
notice. -/
theorem write_twice (s : Fm3CrState) (scale offset value : Nat) :
    (fm3_cr_write (fm3_cr_write s scale offset value).s
        (fm3_cr_write s scale offset value).system_clock_scale offset value).s
        = (fm3_cr_write s scale offset value).s
      ∧ (fm3_cr_write (fm3_cr_write s scale offset value).s
        (fm3_cr_write s scale offset value).system_clock_scale offset value).system_clock_scale
        = (fm3_cr_write s scale offset value).system_clock_scale
      ∧ ∀ hz, Fm3CrPrint.base_clock hz ∉
          (fm3_cr_write (fm3_cr_write s scale offset value).s
            (fm3_cr_write s scale offset value).system_clock_scale offset value).printed := by
  by_cases h0 : offset = 0
  · subst h0
    have hf : (fm3_cr_update_system_clock
        { s with scm := (value &&& 0xff) % 2 ^ 32 } scale).s.scm
          = (value &&& 0xff) % 2 ^ 32 :=
      congrArg Fm3CrState.scm
        (update_frame { s with scm := (value &&& 0xff) % 2 ^ 32 } scale)
    rw [write_scm s, write_scm, with_scm_self _ _ hf]
    exact update_idem _ _
  by_cases h1 : offset = 0x10
  · subst h1
    have hf : (fm3_cr_update_system_clock
        { s with bsc := (value &&& 3) % 2 ^ 32 } scale).s.bsc
          = (value &&& 3) % 2 ^ 32 :=
      congrArg Fm3CrState.bsc
        (update_frame { s with bsc := (value &&& 3) % 2 ^ 32 } scale)
    rw [write_bsc s, write_bsc, with_bsc_self _ _ hf]
    exact update_idem _ _
  by_cases h2 : offset = 0x38
  · subst h2
    have hf : (fm3_cr_update_system_clock
        { s with pll1 := value % 2 ^ 32 } scale).s.pll1 = value % 2 ^ 32 :=
      congrArg Fm3CrState.pll1
        (update_frame { s with pll1 := value % 2 ^ 32 } scale)
    rw [write_pll1 s, write_pll1, with_pll1_self _ _ hf]
    exact update_idem _ _
  by_cases h3 : offset = 0x3c
  · subst h3
    by_cases hbig : 49 < value &&& 0x3f
    · rw [write_pll2 s, if_pos hbig, write_pll2, if_pos hbig]
      simp
    · have hf : (fm3_cr_update_system_clock
          { s with pll2 := value &&& 0x3f } scale).s.pll2 = value &&& 0x3f :=
        congrArg Fm3CrState.pll2
          (update_frame { s with pll2 := value &&& 0x3f } scale)
      rw [write_pll2 s, if_neg hbig, write_pll2, if_neg hbig, with_pll2_self _ _ hf]
      exact update_idem _ _
  · rw [write_other s scale offset value h0 h1 h2 h3,
      write_other s scale offset value h0 h1 h2 h3]
    simp

/-- One register write prints at most one message. -/
theorem write_printed_length (s : Fm3CrState) (scale offset value : Nat) :
    (fm3_cr_write s scale offset value).printed.length ≤ 1 := by
  unfold fm3_cr_write
  simp only []
  split_ifs <;> first | exact update_printed_length _ _ | simp

/-- C11: performing the same register write twice in succession. For every
state, offset and value, the second write leaves the published clock scale,
`master_clk_hz` and the whole device as the first write left them and prints
no base-clock notice; over the two writes the notice is printed at most
once. -/
theorem fm3_cr_write_idempotent (s : Fm3CrState) (scale offset value : Nat) :
    let r1 := fm3_cr_write s scale offset value
    let r2 := fm3_cr_write r1.s r1.system_clock_scale offset value
    r2.system_clock_scale = r1.system_clock_scale
      ∧ r2.s.master_clk_hz = r1.s.master_clk_hz
      ∧ r2.s = r1.s
      ∧ (∀ hz, Fm3CrPrint.base_clock hz ∉ r2.printed)
      ∧ (r1.printed ++ r2.printed).countP
          (fun p => match p with
            | Fm3CrPrint.base_clock _ => true
            | _ => false) ≤ 1 := by
  intro r1 r2
  obtain ⟨hs, hscale, hnone⟩ := write_twice s scale offset value
  refine ⟨hscale, congrArg Fm3CrState.master_clk_hz hs, hs, hnone, ?_⟩
  have h1 : r1.printed.countP
      (fun p => match p with
        | Fm3CrPrint.base_clock _ => true
        | _ => false) ≤ 1 :=
    le_trans (List.countP_le_length _) (write_printed_length s scale offset value)
  have h2 : r2.printed.countP
      (fun p => match p with
        | Fm3CrPrint.base_clock _ => true
        | _ => false) = 0 := by
    rw [List.countP_eq_zero]
    intro p hp
    cases p with
    | base_clock hz => exact absurd hp (hnone hz)
    | invalid_master_clock _ => simp
    | invalid_divisor _ => simp
    | invalid_pll _ => simp
  rw [List.countP_append, h2]
  exact h1

/-- C12: reset sets `master_clk_hz` to 4000000 and changes nothing else:
`scm`, `bsc`, `pll1`, `pll2`, `main_clk_hz`, `sub_clk_hz` and the published
clock scale are as before, and nothing is printed. -/
theorem fm3_cr_reset_frame (s : Fm3CrState) (scale : Nat) :
    (fm3_cr_reset s scale).s.master_clk_hz = 4000000
      ∧ (fm3_cr_reset s scale).s.scm = s.scm
      ∧ (fm3_cr_reset s scale).s.bsc = s.bsc
      ∧ (fm3_cr_reset s scale).s.pll1 = s.pll1
      ∧ (fm3_cr_reset s scale).s.pll2 = s.pll2
      ∧ (fm3_cr_reset s scale).s.main_clk_hz = s.main_clk_hz
      ∧ (fm3_cr_reset s scale).s.sub_clk_hz = s.sub_clk_hz
      ∧ (fm3_cr_reset s scale).system_clock_scale = scale
      ∧ (fm3_cr_reset s scale).printed = [] :=
  ⟨rfl, rfl, rfl, rfl, rfl, rfl, rfl, rfl, rfl⟩

/-! ## Interrupt aggregator: the bit-gathering loops -/

/-- The value half of a gathering loop is the loop over the values alone. -/
theorem gather_fst (f : Nat → Bool) (g : Nat → Nat) (l : List Nat) (r : Nat)
    (t : List Fm3IntQuery) :
    (l.foldl (fun acc i =>
        (acc.1 ||| ((f i).toNat <<< g i), acc.2 ++ [Fm3IntQuery.exti i])) (r, t)).1
      = l.foldl (fun acc i => acc ||| ((f i).toNat <<< g i)) r := by
  induction l generalizing r t with
  | nil => rfl
  | cons a l ih => simp only [List.foldl_cons]; exact ih _ _

/-- The query half of a gathering loop is the list of channels visited. -/
theorem gather_snd (f : Nat → Bool) (g : Nat → Nat) (l : List Nat) (r : Nat)
    (t : List Fm3IntQuery) :
    (l.foldl (fun acc i =>
        (acc.1 ||| ((f i).toNat <<< g i), acc.2 ++ [Fm3IntQuery.exti i])) (r, t)).2
      = t ++ l.map Fm3IntQuery.exti := by
  induction l generalizing r t with
  | nil => simp
  | cons a l ih => simp only [List.foldl_cons, List.map_cons]; rw [ih]; simp

/-- Bit `j` of the gathered value: it was set before, or some visited channel
placed at position `j` is pending. -/
theorem gather_testBit (f : Nat → Bool) (g : Nat → Nat) (l : List Nat) (r j : Nat) :
    (l.foldl (fun acc i => acc ||| ((f i).toNat <<< g i)) r).testBit j
      = (r.testBit j || l.any (fun i => decide (g i = j) && f i)) := by
  induction l generalizing r with
  | nil => simp
  | cons a l ih =>
    simp only [List.foldl_cons, List.any_cons]
    rw [ih, Nat.testBit_or, Nat.testBit_shiftLeft]
    have hb : ((f a).toNat).testBit (j - g a) = (decide (j - g a = 0) && f a) :=
      Nat.testBit_bool_to_nat (f a) (j - g a)
    rw [hb]
    by_cases h : g a = j
    · subst h
      simp [Bool.or_assoc]
    · have h1 : ¬ (j ≥ g a ∧ j - g a = 0) := by omega
      by_cases h2 : j ≥ g a
      · have h3 : ¬ (j - g a = 0) := by omega
        simp [h, h2, h3]
      · simp [h, h2]

/-- Over the channels `a .. a+n-1`, with channel `i` placed at bit `i - a`,
bit `j` is taken by channel `a + j` when `j < n` and by none otherwise. -/
theorem any_range_placed (f : Nat → Bool) (a n j : Nat) :
    (List.range' a n).any (fun i => decide (i - a = j) && f i)
      = (decide (j < n) && f (a + j)) := by
  rw [Bool.eq_iff_iff]
  simp only [List.any_eq_true, List.mem_range'_1, Bool.and_eq_true, decide_eq_true_eq]
  constructor
  · rintro ⟨i, ⟨h1, h2⟩, h3, h4⟩
    have hi : i = a + j := by omega
    subst hi
    exact ⟨by omega, h4⟩
  · rintro ⟨h1, h2⟩
    exact ⟨a + j, ⟨by omega, by omega⟩, by omega, h2⟩

/-- Bit `j` of the channels 0-7 monitor register. -/
theorem read_irq04_testBit (q : Fm3Siblings) (j : Nat) :
    (fm3_int_read q 0x24).1.testBit j
      = (decide (j < 8) && q.fm3_exti_get_irq_stat j) := by
  have hreg : (0x24 : Nat) &&& 0xff = FM3_INT_IRQ04MON := by decide
  unfold fm3_int_read
  simp only [hreg, if_true]
  rw [gather_fst q.fm3_exti_get_irq_stat (fun i => i), gather_testBit]
  have h := any_range_placed q.fm3_exti_get_irq_stat 0 8 j
  simp only [Nat.sub_zero, Nat.zero_add] at h
  rw [h]
  simp

/-- Bit `j` of the channels 8-31 monitor register. -/
theorem read_irq05_testBit (q : Fm3Siblings) (j : Nat) :
    (fm3_int_read q 0x28).1.testBit j
      = (decide (j < 24) && q.fm3_exti_get_irq_stat (j + 8)) := by
  have hreg : (0x28 : Nat) &&& 0xff = FM3_INT_IRQ05MON := by decide
  have hne : FM3_INT_IRQ05MON ≠ FM3_INT_IRQ04MON := by decide
  unfold fm3_int_read
  simp only [hreg, hne, if_true, if_false]
  rw [gather_fst q.fm3_exti_get_irq_stat (fun i => i - 8), gather_testBit]
  rw [any_range_placed q.fm3_exti_get_irq_stat 8 24 j, Nat.add_comm 8 j]
  simp

/-! ## Interrupt aggregator theorems -/

/-- C13: for every assignment of the external-interrupt pending flags, bit
`j` of a read at 0x24 is the flag of channel `j` for `j` in 0..7 and 0
elsewhere, and bit `j` of a read at 0x28 is the flag of channel `j + 8` for
`j` in 0..23 and 0 elsewhere. The value is a function of the flags at read
time alone: two reads agree exactly when the flags of the channels shown
agree, so a flag that changes between two reads changes the second value. -/
theorem fm3_int_read_extint_monitor (q q' : Fm3Siblings) (j : Nat) :
    (fm3_int_read q 0x24).1.testBit j
        = (decide (j < 8) && q.fm3_exti_get_irq_stat j)
      ∧ (fm3_int_read q 0x28).1.testBit j
        = (decide (j < 24) && q.fm3_exti_get_irq_stat (j + 8))
      ∧ ((fm3_int_read q 0x24).1 = (fm3_int_read q' 0x24).1
          ↔ ∀ i, i < 8 → q.fm3_exti_get_irq_stat i = q'.fm3_exti_get_irq_stat i)
      ∧ ((fm3_int_read q 0x28).1 = (fm3_int_read q' 0x28).1
          ↔ ∀ i, 8 ≤ i → i < 32 →
              q.fm3_exti_get_irq_stat i = q'.fm3_exti_get_irq_stat i) := by
  refine ⟨read_irq04_testBit q j, read_irq05_testBit q j, ?_, ?_⟩
  · constructor
    · intro h i hi
      have hb := read_irq04_testBit q i
      rw [h, read_irq04_testBit q' i] at hb
      simpa [hi] using hb.symm
    · intro h
      apply Nat.eq_of_testBit_eq
      intro i
      rw [read_irq04_testBit, read_irq04_testBit]
      by_cases hi : i < 8
      · rw [h i hi]
      · simp [hi]
  · constructor
    · intro h i h8 h32
      have hb := read_irq05_testBit q (i - 8)
      rw [h, read_irq05_testBit q' (i - 8)] at hb
      have hi : i - 8 < 24 := by omega
      have he : i - 8 + 8 = i := by omega
      simpa [hi, he] using hb.symm
    · intro h
      apply Nat.eq_of_testBit_eq
      intro i
      rw [read_irq05_testBit, read_irq05_testBit]
      by_cases hi : i < 24
      · rw [h (i + 8) (by omega) (by omega)]
      · simp [hi]

/-- C14: for every serial port `p` in 0..7, a read at `0x30 + 8 * p` returns
the rx pending flag of port `p`, and a read at `0x34 + 8 * p` returns
`tx_pending(p) | (status_pending(p) << 1)` of the same port; in both cases
the port queried is `p`. -/
theorem fm3_int_read_mfs (q : Fm3Siblings) (p : Nat) (hp : p < 8) :
    fm3_int_read q (0x30 + 8 * p)
        = ((q.fm3_uart_get_rx_irq_stat p).toNat, [Fm3IntQuery.uart_rx p])
      ∧ fm3_int_read q (0x34 + 8 * p)
        = ((q.fm3_uart_get_tx_irq_stat p).toNat
              ||| ((q.fm3_uart_get_stat_irq_stat p).toNat <<< 1),
            [Fm3IntQuery.uart_tx p, Fm3IntQuery.uart_stat p]) := by
  interval_cases p <;> exact ⟨rfl, rfl⟩

/-- C14 at port 3: offsets 0x48 and 0x4C. -/
theorem fm3_int_read_mfs_witness :
    (3 : Nat) < 8
      ∧ (fm3_int_read ⟨fun _ => false, fun p => decide (p = 3), fun _ => false,
            fun p => decide (p = 3)⟩ 0x48).1 = 1
      ∧ (fm3_int_read ⟨fun _ => false, fun p => decide (p = 3), fun _ => false,
            fun p => decide (p = 3)⟩ 0x4C).1 = 2 :=
  have h := fm3_int_read_mfs ⟨fun _ => false, fun p => decide (p = 3), fun _ => false,
    fun p => decide (p = 3)⟩ 3 (by decide)
  ⟨by decide, congrArg Prod.fst h.1, congrArg Prod.fst h.2⟩

/-- C15, as stated, fails: offset 0x124 lies inside the 0x1000-byte window
and is not one of the monitor offsets, yet with external channel 0 pending a
read there returns 1, because the `switch` looks at `offset & 0xff` only. -/
theorem fm3_int_read_alias_counterexample :
    (0x124 : Nat) < 0x1000
      ∧ (0x124 : Nat) ∉ [0x24, 0x28, 0x30, 0x34, 0x38, 0x3C, 0x40, 0x44, 0x48, 0x4C,
          0x50, 0x54, 0x58, 0x5C, 0x60, 0x64, 0x68, 0x6C]
      ∧ (fm3_int_read ⟨fun ch => decide (ch = 0), fun _ => false, fun _ => false,
            fun _ => false⟩ 0x124).1 = 1
      ∧ (fm3_int_read ⟨fun ch => decide (ch = 0), fun _ => false, fun _ => false,
            fun _ => false⟩ 0x124).1 ≠ 0 := by
  refine ⟨by decide, by decide, ?_, ?_⟩
  · rfl
  · exact (by decide : (1 : Nat) ≠ 0)

/-- C15, amended: for every offset whose low byte `offset & 0xff` is not one
of the monitor register offsets (0x24, 0x28, and 0x30 through 0x6C in steps
of 4), a read returns 0 whatever the siblings' pending flags are, and no
sibling is queried. -/
theorem fm3_int_read_other (q : Fm3Siblings) (offset : Nat)
    (hreg : offset &&& 0xff ∉ [0x24, 0x28, 0x30, 0x34, 0x38, 0x3C, 0x40, 0x44, 0x48,
      0x4C, 0x50, 0x54, 0x58, 0x5C, 0x60, 0x64, 0x68, 0x6C]) :
    fm3_int_read q offset = (0, []) := by
  simp only [List.mem_cons, List.mem_singleton, List.not_mem_nil, or_false,
    not_or] at hreg
  obtain ⟨h24, h28, h30, h34, h38, h3C, h40, h44, h48, h4C, h50, h54, h58, h5C, h60,
    h64, h68, h6C⟩ := hreg
  simp [fm3_int_read, FM3_INT_IRQ04MON, FM3_INT_IRQ05MON, FM3_INT_IRQ07MON,
    FM3_INT_IRQ08MON, FM3_INT_IRQ09MON, FM3_INT_IRQ10MON, FM3_INT_IRQ11MON,
    FM3_INT_IRQ12MON, FM3_INT_IRQ13MON, FM3_INT_IRQ14MON, FM3_INT_IRQ15MON,
    FM3_INT_IRQ16MON, FM3_INT_IRQ17MON, FM3_INT_IRQ18MON, FM3_INT_IRQ19MON,
    FM3_INT_IRQ20MON, FM3_INT_IRQ21MON, FM3_INT_IRQ22MON, h24, h28, h30, h34, h38,
    h3C, h40, h44, h48, h4C, h50, h54, h58, h5C, h60, h64, h68, h6C]

/-- C15 amended, at offset 0x70 with every flag pending. -/
theorem fm3_int_read_other_witness :
    (0x70 : Nat) &&& 0xff ∉ [0x24, 0x28, 0x30, 0x34, 0x38, 0x3C, 0x40, 0x44, 0x48,
        0x4C, 0x50, 0x54, 0x58, 0x5C, 0x60, 0x64, 0x68, 0x6C]
      ∧ fm3_int_read ⟨fun _ => true, fun _ => true, fun _ => true, fun _ => true⟩ 0x70
        = (0, []) :=
  ⟨by decide,
    fm3_int_read_other ⟨fun _ => true, fun _ => true, fun _ => true, fun _ => true⟩ 0x70
      (by decide)⟩

/-- C16: for every line index `i` below the line count and every level,
`fm3_int_set_irq` drives output line `i` to exactly that level and leaves
every other output line, the number of lines and the rest of the device as
they were. -/
theorem fm3_int_set_irq_pass_through (s : Fm3IntState) (i : Nat) (level : Int)
    (hi : i < s.parent.length) :
    (fm3_int_set_irq s i level).parent[i]? = some level
      ∧ (∀ j, j ≠ i → (fm3_int_set_irq s i level).parent[j]? = s.parent[j]?)
      ∧ (fm3_int_set_irq s i level).parent.length = s.parent.length
      ∧ fm3_int_set_irq s i level = { s with parent := (fm3_int_set_irq s i level).parent } := by
  refine ⟨?_, ?_, ?_, rfl⟩
  · simp [fm3_int_set_irq, qemu_set_irq, hi]
  · intro j hj
    simp [fm3_int_set_irq, qemu_set_irq, List.getElem?_set, Ne.symm hj]
  · simp [fm3_int_set_irq, qemu_set_irq]

/-- C16 on three lines: raising line 1 and lowering it again. -/
theorem fm3_int_set_irq_pass_through_witness :
    1 < (⟨[0, 0, 1], 0, 0, [], []⟩ : Fm3IntState).parent.length
      ∧ (fm3_int_set_irq ⟨[0, 0, 1], 0, 0, [], []⟩ 1 1).parent = [0, 1, 1]
      ∧ (fm3_int_set_irq (fm3_int_set_irq ⟨[0, 0, 1], 0, 0, [], []⟩ 1 1) 1 0).parent
          = [0, 0, 1]
      ∧ (fm3_int_set_irq ⟨[0, 0, 1], 0, 0, [], []⟩ 1 1).parent[1]? = some 1 :=
  ⟨by decide, by decide, by decide,
    (fm3_int_set_irq_pass_through ⟨[0, 0, 1], 0, 0, [], []⟩ 1 1 (by decide)).1⟩

/-- C20: the port index is computed from the whole offset although the
`switch` looks at its low byte only. A read at 0x130 or 0x134, inside the
0x1000-byte window, queries serial port 32, and a read at 0xF6C queries port
487; the external-interrupt channels queried are always in 0..31. -/
theorem fm3_int_read_port_index (q : Fm3Siblings) (offset ch : Nat) :
    (fm3_int_read q 0x130).2 = [Fm3IntQuery.uart_rx 32]
      ∧ (fm3_int_read q 0x134).2 = [Fm3IntQuery.uart_tx 32, Fm3IntQuery.uart_stat 32]
      ∧ (fm3_int_read q 0xF6C).2 = [Fm3IntQuery.uart_tx 487, Fm3IntQuery.uart_stat 487]
      ∧ ¬ (Fm3IntQuery.exti ch ∈ (fm3_int_read q offset).2 ∧ 32 ≤ ch) := by
  refine ⟨rfl, rfl, rfl, ?_⟩
  rintro ⟨hmem, hch⟩
  revert hmem
  unfold fm3_int_read
  simp only []
  split_ifs
  · rw [gather_snd q.fm3_exti_get_irq_stat (fun i => i)]
    simp [List.mem_range'_1]
    omega
  · rw [gather_snd q.fm3_exti_get_irq_stat (fun i => i - 8)]
    simp [List.mem_range'_1]
    omega
  · simp
  · simp
  · simp

/-! ## Watchdog: the software instance and the handshake -/

/-- C17, as stated, fails: on a freshly initialised device the software
lock-status offset 0x1C00 reads 0 (the hardware one, 0xC00, reads 1), and
after 0x1ACCE551 and 0xE5331AAE are written to 0x1C00 a control write of 3 at
0x1008 reads back as 0 and the software instance is still locked. -/
theorem fm3_wdt_sw_counterexample :
    (fm3_wdt_read (fm3_wdt_init ⟨⟨FM3_WDT_STATE_UNLOCK, 0⟩, ⟨FM3_WDT_STATE_UNLOCK, 0⟩⟩)
        0x1C00).2 = 0
      ∧ (fm3_wdt_read (fm3_wdt_init ⟨⟨FM3_WDT_STATE_UNLOCK, 0⟩, ⟨FM3_WDT_STATE_UNLOCK, 0⟩⟩)
        0x1C00).2 ≠ 1
      ∧ (fm3_wdt_read (fm3_wdt_init ⟨⟨FM3_WDT_STATE_UNLOCK, 0⟩, ⟨FM3_WDT_STATE_UNLOCK, 0⟩⟩)
        0xC00).2 = 1
      ∧ (fm3_wdt_read
          (fm3_wdt_write
            (fm3_wdt_write
              (fm3_wdt_write
                (fm3_wdt_init ⟨⟨FM3_WDT_STATE_UNLOCK, 0⟩, ⟨FM3_WDT_STATE_UNLOCK, 0⟩⟩)
                0x1C00 0x1ACCE551).1
              0x1C00 0xE5331AAE).1
            0x1008 3).1
          0x1008).2 = 0
      ∧ (fm3_wdt_write
          (fm3_wdt_write
            (fm3_wdt_init ⟨⟨FM3_WDT_STATE_UNLOCK, 0⟩, ⟨FM3_WDT_STATE_UNLOCK, 0⟩⟩)
            0x1C00 0x1ACCE551).1
          0x1C00 0xE5331AAE).1.sw.state = FM3_WDT_STATE_LOCK_ALL := by
  decide

/-- C17, amended: the software instance is initialised locked and is not
wired to the register handlers; only the hardware offsets 0x8 and 0xC00 act
on a watchdog instance. In every device state the software offsets 0x1008
and 0x1C00 read 0 and a write to either does nothing and prints nothing; the
same holds at every offset other than 0x8 and 0xC00 (the offset is 0x8, or it
is 0xC00, or the write returns the device as it was with nothing printed and
the read returns 0). No register write at any offset changes the software
instance, and no read at any offset changes the device. -/
theorem fm3_wdt_sw_not_wired (s : Fm3WdtState) (offset value : Nat) :
    (fm3_wdt_init s).sw.state = FM3_WDT_STATE_LOCK_ALL
      ∧ fm3_wdt_read s 0x1008 = (s, 0)
      ∧ fm3_wdt_read s 0x1C00 = (s, 0)
      ∧ fm3_wdt_write s 0x1008 value = (s, [])
      ∧ fm3_wdt_write s 0x1C00 value = (s, [])
      ∧ (fm3_wdt_write s offset value).1.sw = s.sw
      ∧ (offset = 0x8 ∨ offset = 0xC00
          ∨ (fm3_wdt_write s offset value = (s, []) ∧ fm3_wdt_read s offset = (s, 0)))
      ∧ (fm3_wdt_read s offset).1 = s
      ∧ fm3_wdt_write s 0x0 value = (s, [])
      ∧ fm3_wdt_read s 0x0 = (s, 0) := by
  refine ⟨rfl, rfl, rfl, rfl, rfl, ?_, ?_, ?_, rfl, rfl⟩
  · unfold fm3_wdt_write
    split_ifs <;> rfl
  · by_cases h8 : offset = 0x8
    · exact Or.inl h8
    · by_cases hC : offset = 0xC00
      · exact Or.inr (Or.inl hC)
      · refine Or.inr (Or.inr ⟨?_, ?_⟩)
        · simp [fm3_wdt_write, FM3_WDT_OFFSET_HW_CTL, FM3_WDT_OFFSET_HW_LCK, h8, hC]
        · simp [fm3_wdt_read, FM3_WDT_OFFSET_HW_CTL, FM3_WDT_OFFSET_HW_LCK, h8, hC]
  · unfold fm3_wdt_read
    split_ifs <;> rfl

/-- The last step into UNLOCKED is the second code from STAGE1_UNLOCKED. -/
theorem unlock_state_eq_unlock (s : FM3_WDT_STATE) (c : Nat) :
    fm3_wdt_unlock_state s c = FM3_WDT_STATE_UNLOCK
      ↔ s = FM3_WDT_STATE_LOCK_CTL ∧ c = 0xE5331AAE := by
  cases s <;> simp [fm3_wdt_unlock_state, FM3_WDT_UNLOCK, FM3_WDT_UNLOCK_CTL]
  all_goals split_ifs <;> simp_all

/-- The only step into STAGE1_UNLOCKED is the first code from LOCKED. -/
theorem unlock_state_eq_lock_ctl (s : FM3_WDT_STATE) (c : Nat) :
    fm3_wdt_unlock_state s c = FM3_WDT_STATE_LOCK_CTL
      ↔ s = FM3_WDT_STATE_LOCK_ALL ∧ c = 0x1ACCE551 := by
  cases s <;> simp [fm3_wdt_unlock_state, FM3_WDT_UNLOCK, FM3_WDT_UNLOCK_CTL]
  all_goals split_ifs <;> simp_all

/-- A run of lock-register writes acts on the hardware lock state as the
transition function folded over the narrowed codes. -/
theorem lock_writes_state (vals : List Nat) (d : Fm3WdtState) :
    (vals.foldl (fun d v => (fm3_wdt_write d 0xC00 v).1) d).hw.state
      = (vals.map (fun v => v % 2 ^ 32)).foldl fm3_wdt_unlock_state d.hw.state := by
  induction vals generalizing d with
  | nil => rfl
  | cons v vals ih =>
    simp only [List.foldl_cons, List.map_cons]
    rw [ih]
    rfl

/-- C18: the handshake succeeds only from LOCKED. For every starting state
the codes 0x1ACCE551 then 0xE5331AAE end in UNLOCKED when the start is LOCKED
and in LOCKED otherwise. For every sequence of codes applied from LOCKED the
final state is UNLOCKED exactly when the sequence ends with 0x1ACCE551,
0xE5331AAE and the codes before them leave the state LOCKED. A run of writes
to the lock register 0xC00 is such a sequence of (narrowed) codes. -/
theorem fm3_wdt_handshake (s : FM3_WDT_STATE) (codes vals : List Nat) (d : Fm3WdtState) :
    fm3_wdt_unlock_state (fm3_wdt_unlock_state s 0x1ACCE551) 0xE5331AAE
        = (if s = FM3_WDT_STATE_LOCK_ALL then FM3_WDT_STATE_UNLOCK
            else FM3_WDT_STATE_LOCK_ALL)
      ∧ (codes.foldl fm3_wdt_unlock_state FM3_WDT_STATE_LOCK_ALL = FM3_WDT_STATE_UNLOCK
          ↔ ∃ pre, codes = pre ++ [0x1ACCE551, 0xE5331AAE]
              ∧ pre.foldl fm3_wdt_unlock_state FM3_WDT_STATE_LOCK_ALL
                  = FM3_WDT_STATE_LOCK_ALL)
      ∧ (vals.foldl (fun d v => (fm3_wdt_write d 0xC00 v).1) d).hw.state
          = (vals.map (fun v => v % 2 ^ 32)).foldl fm3_wdt_unlock_state d.hw.state := by
  refine ⟨?_, ?_, lock_writes_state vals d⟩
  · cases s <;> rfl
  · constructor
    · intro h
      rcases List.eq_nil_or_concat codes with hnil | ⟨init, b, hinit⟩
      · subst hnil
        exact absurd h (by decide)
      · subst hinit
        rw [List.concat_eq_append] at h ⊢
        rw [List.foldl_append, List.foldl_cons, List.foldl_nil,
          unlock_state_eq_unlock] at h
        obtain ⟨h1, hb⟩ := h
        rcases List.eq_nil_or_concat init with hnil | ⟨pre, a, hpre⟩
        · subst hnil
          exact absurd h1 (by decide)
        · subst hpre
          rw [List.concat_eq_append] at h1 ⊢
          rw [List.foldl_append, List.foldl_cons, List.foldl_nil,
            unlock_state_eq_lock_ctl] at h1
          obtain ⟨h0, ha⟩ := h1
          subst ha hb
          exact ⟨pre, by simp, h0⟩
    · rintro ⟨pre, hcodes, hpre⟩
      subst hcodes
      rw [List.foldl_append, hpre]
      rfl

/-! ## Clock controller: a rejected PLL multiplier and the next write -/

/-- Unless the enabled PLL is the selected source, the recomputation does
not look at `pll2`. -/
theorem update_pll2_irrelevant (s : Fm3CrState) (x scale : Nat)
    (h : ¬ ((s.scm >>> 5) &&& 3 = 2 ∧ s.scm &&& 16 ≠ 0)) :
    (fm3_cr_update_system_clock { s with pll2 := x } scale).s.master_clk_hz
        = (fm3_cr_update_system_clock s scale).s.master_clk_hz
      ∧ (fm3_cr_update_system_clock { s with pll2 := x } scale).system_clock_scale
        = (fm3_cr_update_system_clock s scale).system_clock_scale := by
  obtain ⟨scm, bsc, pll1, pll2, main_clk_hz, sub_clk_hz, master_clk_hz⟩ := s
  simp only at h
  have hb : bsc = 0 ∨ bsc = 1 ∨ bsc = 2 ∨ bsc = 3 ∨ bsc = 4 ∨ bsc = 5 ∨ bsc = 6
      ∨ (bsc ≠ 0 ∧ bsc ≠ 1 ∧ bsc ≠ 2 ∧ bsc ≠ 3 ∧ bsc ≠ 4 ∧ bsc ≠ 5 ∧ bsc ≠ 6) := by omega
  rcases selector_cases scm with hs | hs | hs | hs
  · rcases hb with b | b | b | b | b | b | b | ⟨b0, b1, b2, b3, b4, b5, b6⟩ <;>
      simp [fm3_cr_update_system_clock, hs, *]
  · by_cases h8 : scm &&& 8 = 0 <;>
    rcases hb with b | b | b | b | b | b | b | ⟨b0, b1, b2, b3, b4, b5, b6⟩ <;>
      simp [fm3_cr_update_system_clock, hs, h8, *]
  · have h16 : scm &&& 16 = 0 := by
      by_contra hne
      exact h ⟨hs, hne⟩
    rcases hb with b | b | b | b | b | b | b | ⟨b0, b1, b2, b3, b4, b5, b6⟩ <;>
      simp [fm3_cr_update_system_clock, hs, h16, *]
  · simp [fm3_cr_update_system_clock, hs]

/-- C19, as stated, fails: on a device at 4 MHz with `pll2 = 0`, the rejected
write of 63 to PLL control 2 followed by the mode-control write 0x50 (PLL
selected and enabled) gives `master_clk_hz` and a published scale of
256000000, while the mode-control write alone gives 4000000 for both. -/
theorem fm3_cr_rejected_pll2_counterexample :
    (⟨0, 0, 0, 0, 4000000, 32768, 4000000⟩ : Fm3CrState).pll2 ≤ 49
      ∧ 49 < 63 &&& 0x3F
      ∧ (fm3_cr_write (fm3_cr_write ⟨0, 0, 0, 0, 4000000, 32768, 4000000⟩ 4000000 0x3c 63).s
          (fm3_cr_write ⟨0, 0, 0, 0, 4000000, 32768, 4000000⟩ 4000000 0x3c 63).system_clock_scale
          0 0x50).s.master_clk_hz = 256000000
      ∧ (fm3_cr_write (fm3_cr_write ⟨0, 0, 0, 0, 4000000, 32768, 4000000⟩ 4000000 0x3c 63).s
          (fm3_cr_write ⟨0, 0, 0, 0, 4000000, 32768, 4000000⟩ 4000000 0x3c 63).system_clock_scale
          0 0x50).system_clock_scale = 256000000
      ∧ (fm3_cr_write ⟨0, 0, 0, 0, 4000000, 32768, 4000000⟩ 4000000 0 0x50).s.master_clk_hz
          = 4000000
      ∧ (fm3_cr_write ⟨0, 0, 0, 0, 4000000, 32768, 4000000⟩ 4000000 0 0x50).system_clock_scale
          = 4000000 := by
  decide

/-- C19, amended: for every state, every `v` with `(v & 0x3F) > 49` and every
following register write that either is itself a write to PLL control 2 or
leaves a source other than the enabled PLL selected (bits [6:5] of
mode-control not 2, or bit 4 clear), the rejected write followed by that write
gives the same `master_clk_hz` and published clock scale as that write
alone. -/
theorem fm3_cr_rejected_pll2_then_write (s : Fm3CrState) (scale v offset w : Nat)
    (hrej : 49 < v &&& 0x3F)
    (hw : offset = 0x3c
      ∨ ¬ (((fm3_cr_write s scale offset w).s.scm >>> 5) &&& 3 = 2
            ∧ (fm3_cr_write s scale offset w).s.scm &&& 16 ≠ 0)) :
    (fm3_cr_write (fm3_cr_write s scale 0x3c v).s
        (fm3_cr_write s scale 0x3c v).system_clock_scale offset w).s.master_clk_hz
        = (fm3_cr_write s scale offset w).s.master_clk_hz
      ∧ (fm3_cr_write (fm3_cr_write s scale 0x3c v).s
        (fm3_cr_write s scale 0x3c v).system_clock_scale offset w).system_clock_scale
        = (fm3_cr_write s scale offset w).system_clock_scale := by
  have hr : fm3_cr_write s scale 0x3c v
      = ⟨{ s with pll2 := v &&& 0x3f }, scale, [Fm3CrPrint.invalid_pll (v &&& 0x3f)]⟩ := by
    rw [write_pll2, if_pos hrej]
  rw [hr]
  simp only
  by_cases h3 : offset = 0x3c
  · subst h3
    rw [write_pll2, write_pll2]
    exact ⟨rfl, rfl⟩
  have hw' := hw.resolve_left h3
  by_cases h0 : offset = 0
  · subst h0
    rw [write_scm] at hw' ⊢
    rw [write_scm]
    rw [update_frame] at hw'
    exact update_pll2_irrelevant { s with scm := (w &&& 0xff) % 2 ^ 32 } _ scale hw'
  by_cases h1 : offset = 0x10
  · subst h1
    rw [write_bsc] at hw' ⊢
    rw [write_bsc]
    rw [update_frame] at hw'
    exact update_pll2_irrelevant { s with bsc := (w &&& 3) % 2 ^ 32 } _ scale hw'
  by_cases h2 : offset = 0x38
  · subst h2
    rw [write_pll1] at hw' ⊢
    rw [write_pll1]
    rw [update_frame] at hw'
    exact update_pll2_irrelevant { s with pll1 := w % 2 ^ 32 } _ scale hw'
  · rw [write_other _ _ offset w h0 h1 h2 h3, write_other _ _ offset w h0 h1 h2 h3]
    exact ⟨rfl, rfl⟩

/-- C19 amended, at a concrete state: the rejected write of 63 followed by
the mode-control write 0x28 (main oscillator selected and enabled). -/
theorem fm3_cr_rejected_pll2_then_write_witness :
    49 < 63 &&& 0x3F
      ∧ ((0 : Nat) = 0x3c
          ∨ ¬ (((fm3_cr_write ⟨0, 1, 0, 0, 4000000, 32768, 4000000⟩ 4000000 0 0x28).s.scm
                  >>> 5) &&& 3 = 2
              ∧ (fm3_cr_write ⟨0, 1, 0, 0, 4000000, 32768, 4000000⟩ 4000000 0 0x28).s.scm
                  &&& 16 ≠ 0))
      ∧ (fm3_cr_write (fm3_cr_write ⟨0, 1, 0, 0, 4000000, 32768, 4000000⟩ 4000000 0x3c 63).s
          (fm3_cr_write ⟨0, 1, 0, 0, 4000000, 32768, 4000000⟩ 4000000 0x3c 63).system_clock_scale
          0 0x28).s.master_clk_hz
          = (fm3_cr_write ⟨0, 1, 0, 0, 4000000, 32768, 4000000⟩ 4000000 0 0x28).s.master_clk_hz
      ∧ (fm3_cr_write (fm3_cr_write ⟨0, 1, 0, 0, 4000000, 32768, 4000000⟩ 4000000 0x3c 63).s
          (fm3_cr_write ⟨0, 1, 0, 0, 4000000, 32768, 4000000⟩ 4000000 0x3c 63).system_clock_scale
          0 0x28).system_clock_scale
          = (fm3_cr_write ⟨0, 1, 0, 0, 4000000, 32768, 4000000⟩ 4000000 0 0x28).system_clock_scale :=
  ⟨by decide, by decide,
    fm3_cr_rejected_pll2_then_write ⟨0, 1, 0, 0, 4000000, 32768, 4000000⟩ 4000000 63 0 0x28
      (by decide) (by decide)⟩
